import Mathlib

/-!
# Verification of the S3 data-lake bucket manager

A shallow embedding of `src/infra/boto3/s3_bucket_manager.py` (class
`S3DataLakeManager`).  The S3 client is modelled as a behaviour function
from calls to results; each manager method is translated into a pure
function that returns the list of client calls it issued together with
either a result or the Python exception it raised.  Strings are Lean
`String`s; the Python `str.isalnum` / `str.lower` character primitives
are modelled at the ASCII level.
-/

namespace DataLake

/-! ## Definitions: shallow embedding of the manager -/

/-- Model of Python `c.isalnum()` for a single character `c`.  Python's
`str.isalnum` is Unicode-aware: it accepts every letter and numeric
character, not just ASCII.  This model is exact on ASCII and, beyond
ASCII, carries the fragment of the Unicode tables this development
uses: the CJK Unified Ideographs block U+4E00–U+9FFF (category Lo,
alphanumeric for Python — e.g. `'中'`) and VULGAR FRACTION ONE HALF
U+00BD (category No, alphanumeric for Python).  Characters outside this
fragment are treated as non-alphanumeric; the fragment is what the
theorems below exercise, and the charset theorem restricts its
conclusion to ASCII inputs, where the model is exact. -/
def pyIsAlnum (c : Char) : Bool :=
  (65 ≤ c.toNat && c.toNat ≤ 90) || (97 ≤ c.toNat && c.toNat ≤ 122) ||
    (48 ≤ c.toNat && c.toNat ≤ 57) ||
    (0x4E00 ≤ c.toNat && c.toNat ≤ 0x9FFF) || (c.toNat == 0xBD)

/-- Model of Python `c.lower()` for a single character `c`: uppercase
ASCII letters are shifted down by 32, all else unchanged.  This is
exact on ASCII and on the caseless non-ASCII characters of the
`pyIsAlnum` fragment (CJK ideographs and `'½'` have no lowercase
mapping); it does not model the cased non-ASCII letters Python would
lower, which lie outside the fragment. -/
def pyLowerChar (c : Char) : Char :=
  if 65 ≤ c.toNat ∧ c.toNat ≤ 90 then Char.ofNat (c.toNat + 32) else c

/-- `''.join(c.lower() for c in s if c.isalnum() or c == '-')` — the
sanitisation applied to `project` and `environment` in
`_generate_bucket_name`.  Exact for strings over ASCII plus the
caseless non-ASCII fragment of `pyIsAlnum`. -/
def cleanName (s : List Char) : List Char :=
  (s.filter (fun c => pyIsAlnum c || c == '-')).map pyLowerChar

/-- The assembly and truncation step of `_generate_bucket_name`,
taking the already-sanitised project and environment parts: mirrors
`f"{clean_project}-{clean_environment}-data-lake-{suffix}"` followed by
`bucket_name[:57] + suffix` when the assembled name exceeds 63
characters.  Factored out so that the length and suffix-preservation
properties can be proved for arbitrary sanitised parts, independent of
the character-level sanitisation model. -/
def assembleBucketName (clean_project clean_environment suffix : List Char) : List Char :=
  let bucket_name :=
    clean_project ++ ['-'] ++ clean_environment ++ "-data-lake-".toList ++ suffix
  if bucket_name.length > 63 then bucket_name.take 57 ++ suffix else bucket_name

/-- Core of `_generate_bucket_name` on character lists.  The random
6-character suffix drawn from `string.ascii_lowercase + string.digits`
is passed in as a parameter. -/
def generateBucketNameCore (project environment suffix : List Char) : List Char :=
  assembleBucketName (cleanName project) (cleanName environment) suffix

/-- `S3DataLakeManager._generate_bucket_name`, with the random suffix
made explicit. -/
def _generate_bucket_name (project environment suffix : String) : String :=
  String.mk (generateBucketNameCore project.toList environment.toList suffix.toList)

/-- A character allowed in the generated bucket name: a lowercase ASCII
letter, an ASCII digit, or a hyphen. -/
def isBucketChar (c : Char) : Prop :=
  (97 ≤ c.toNat ∧ c.toNat ≤ 122) ∨ (48 ≤ c.toNat ∧ c.toNat ≤ 57) ∨ c = '-'

instance (c : Char) : Decidable (isBucketChar c) := by
  unfold isBucketChar; infer_instance

/-- An entry of the `Contents` list returned by `list_objects_v2`. -/
structure RawObject where
  key : String
  size : Nat
  lastModified : String
  etag : String
deriving DecidableEq

/-- The boto3 client calls issued by `S3DataLakeManager`, with the
request payloads the source passes. -/
inductive S3Call where
  | createBucket (bucket : String) (locationConstraint : Option String)
  | putBucketVersioning (bucket : String) (status : String)
  | putBucketEncryption (bucket : String) (sseAlgorithm : String)
  | putPublicAccessBlock (bucket : String)
  | putObject (bucket : String) (key : String) (body : String) (contentType : String)
  | putBucketTagging (bucket : String) (tagSet : List (String × String))
  | putBucketLifecycleConfiguration (bucket : String) (ruleIds : List String)
  | listObjectsV2 (bucket : String) (pfx : String)
  | deleteObjects (bucket : String) (keys : List String)
  | deleteBucket (bucket : String)
deriving DecidableEq

/-- The modelled S3 client: maps a call either to a `ClientError` code
or to a successful response. -/
def Behavior : Type := S3Call → Except String (Option (List RawObject))

/-- The Python exceptions the manager can raise: a propagated boto3
`ClientError` (by error code) or the `ValueError` raised on a global
naming collision. -/
inductive PyError where
  | clientError (code : String)
  | valueError (msg : String)
deriving DecidableEq

/-- Result of running one manager method: the list of client calls it
issued, in order, together with the returned value or raised error. -/
def StepResult (α : Type) : Type := List S3Call × Except PyError α

/-- Sequencing of two fallible call-issuing computations: the Python
control flow in which a raised error aborts everything that follows. -/
def stepBind {α β : Type} (x : StepResult α) (f : α → StepResult β) : StepResult β :=
  match x with
  | (t, Except.ok a) => (t ++ (f a).1, (f a).2)
  | (t, Except.error e) => (t, Except.error e)

/-- The `try: call; except ClientError: log; raise` pattern shared by
`_enable_versioning`, `_enable_encryption`, `_block_public_access`,
`_apply_tags`, `_configure_lifecycle_rules` and the delete calls: issue
one client call and re-raise its `ClientError`, if any. -/
def simpleCall (beh : Behavior) (c : S3Call) : StepResult Unit :=
  match beh c with
  | Except.ok _ => ([c], Except.ok ())
  | Except.error code => ([c], Except.error (PyError.clientError code))

/-- The `create_bucket` request: `us-east-1` omits the
`LocationConstraint`, every other region passes it. -/
def createBucketCall (region bucket : String) : S3Call :=
  if region = "us-east-1" then S3Call.createBucket bucket none
  else S3Call.createBucket bucket (some region)

/-- `S3DataLakeManager._create_bucket`: `BucketAlreadyExists` becomes a
`ValueError`, `BucketAlreadyOwnedByYou` is tolerated (warning only), any
other `ClientError` is re-raised. -/
def _create_bucket (beh : Behavior) (region bucket : String) : StepResult Unit :=
  match beh (createBucketCall region bucket) with
  | Except.ok _ => ([createBucketCall region bucket], Except.ok ())
  | Except.error code =>
    if code = "BucketAlreadyExists" then
      ([createBucketCall region bucket], Except.error (PyError.valueError
        ("Bucket name " ++ bucket ++ " already exists globally")))
    else if code = "BucketAlreadyOwnedByYou" then
      ([createBucketCall region bucket], Except.ok ())
    else
      ([createBucketCall region bucket], Except.error (PyError.clientError code))

/-- `S3DataLakeManager._enable_versioning`. -/
def _enable_versioning (beh : Behavior) (bucket : String) : StepResult Unit :=
  simpleCall beh (S3Call.putBucketVersioning bucket "Enabled")

/-- `S3DataLakeManager._enable_encryption`. -/
def _enable_encryption (beh : Behavior) (bucket : String) : StepResult Unit :=
  simpleCall beh (S3Call.putBucketEncryption bucket "AES256")

/-- `S3DataLakeManager._block_public_access`. -/
def _block_public_access (beh : Behavior) (bucket : String) : StepResult Unit :=
  simpleCall beh (S3Call.putPublicAccessBlock bucket)

/-- The body `b'placeholder file for data lake zone'` of each zone
placeholder object. -/
def zoneKeepBody : String := "placeholder file for data lake zone"

/-- The `put_object` request written for one zone: key `{zone}/.keep`. -/
def zoneObjectCall (bucket zone : String) : S3Call :=
  S3Call.putObject bucket (zone ++ "/.keep") zoneKeepBody "text/plain"

/-- `S3DataLakeManager._create_zone_folders`: one `put_object` per zone,
in the listed order, aborting on the first `ClientError`. -/
def _create_zone_folders (beh : Behavior) (bucket : String) :
    List String → StepResult Unit
  | [] => ([], Except.ok ())
  | z :: zs =>
    stepBind (simpleCall beh (zoneObjectCall bucket z))
      (fun _ => _create_zone_folders beh bucket zs)

/-- `S3DataLakeManager._apply_tags` (the tag dictionary is already
flattened to its insertion-ordered key/value list). -/
def _apply_tags (beh : Behavior) (bucket : String)
    (tags : List (String × String)) : StepResult Unit :=
  simpleCall beh (S3Call.putBucketTagging bucket tags)

/-- The IDs of the two fixed lifecycle rules configured by
`_configure_lifecycle_rules`. -/
def lifecycleRuleIds : List String :=
  ["expire-temp-files", "expire-noncurrent-versions"]

/-- `S3DataLakeManager._configure_lifecycle_rules`. -/
def _configure_lifecycle_rules (beh : Behavior) (bucket : String) : StepResult Unit :=
  simpleCall beh (S3Call.putBucketLifecycleConfiguration bucket lifecycleRuleIds)

/-- Setting a key of a Python dict: an existing key keeps its position
and gets the new value, a new key is appended at the end. -/
def dictInsert : List (String × String) → String → String → List (String × String)
  | [], k, v => [(k, v)]
  | p :: d, k, v => if p.1 = k then (k, v) :: d else p :: dictInsert d k v

/-- `{**d, **e}`: start from `d` and set each entry of `e` in order. -/
def dictMerge (d e : List (String × String)) : List (String × String) :=
  e.foldl (fun acc p => dictInsert acc p.1 p.2) d

/-- Dict lookup: the value of the first entry with the given key. -/
def dictLookup : List (String × String) → String → Option String
  | [], _ => none
  | p :: d, k => if p.1 = k then some p.2 else dictLookup d k

/-- The fixed base tags of `create_data_lake_bucket`. -/
def baseTags (project environment : String) : List (String × String) :=
  [("Project", project), ("Environment", environment),
   ("ManagedBy", "boto3-script"), ("Purpose", "data-lake")]

/-- `bucket_tags = {'Project': ..., 'Environment': ..., 'ManagedBy':
..., 'Purpose': ..., **tags}`. -/
def bucketTags (project environment : String)
    (tags : List (String × String)) : List (String × String) :=
  dictMerge (baseTags project environment) tags

/-- The dictionary returned by `create_data_lake_bucket`. -/
structure CreateResult where
  bucket_name : String
  region : String
  zones : List String
  versioning_enabled : Bool
  encryption_enabled : Bool
deriving DecidableEq

/-- The default zone list. -/
def defaultZones : List String := ["landing", "raw", "curated", "analytics"]

/-- `S3DataLakeManager.create_data_lake_bucket`.  `zones = none` and
`tags = none` model the Python `None` defaults; the random suffix of
the generated bucket name is an explicit parameter.  The outer
`try/except` of the source logs and re-raises the error unchanged, so
it does not alter the returned error. -/
def create_data_lake_bucket (beh : Behavior) (region project environment : String)
    (zones : Option (List String)) (enable_versioning enable_encryption : Bool)
    (tags : Option (List (String × String))) (suffix : String) :
    StepResult CreateResult :=
  let zones := zones.getD defaultZones
  let tags := tags.getD []
  let bucket_name := _generate_bucket_name project environment suffix
  stepBind (_create_bucket beh region bucket_name) (fun _ =>
  stepBind (if enable_versioning then _enable_versioning beh bucket_name
            else ([], Except.ok ())) (fun _ =>
  stepBind (if enable_encryption then _enable_encryption beh bucket_name
            else ([], Except.ok ())) (fun _ =>
  stepBind (_block_public_access beh bucket_name) (fun _ =>
  stepBind (_create_zone_folders beh bucket_name zones) (fun _ =>
  stepBind (_apply_tags beh bucket_name (bucketTags project environment tags)) (fun _ =>
  stepBind (_configure_lifecycle_rules beh bucket_name) (fun _ =>
  ([], Except.ok { bucket_name := bucket_name, region := region, zones := zones,
                   versioning_enabled := enable_versioning,
                   encryption_enabled := enable_encryption }))))))))

/-- An element of the list returned by `list_bucket_contents`. -/
structure ObjInfo where
  key : String
  size : Nat
  last_modified : String
  etag : String
deriving DecidableEq

/-- Python `s.strip(c)`: remove all leading and trailing occurrences of
the character `c`. -/
def pyStripChar (s : String) (c : Char) : String :=
  String.mk (((s.toList.dropWhile (fun a => a == c)).reverse.dropWhile
    (fun a => a == c)).reverse)

/-- `S3DataLakeManager.list_bucket_contents`: one `list_objects_v2`
call; a response without a `Contents` key yields `[]`; a `ClientError`
is re-raised. -/
def list_bucket_contents (beh : Behavior) (bucket : String) (pfx : String) :
    StepResult (List ObjInfo) :=
  match beh (S3Call.listObjectsV2 bucket pfx) with
  | Except.error code =>
      ([S3Call.listObjectsV2 bucket pfx], Except.error (PyError.clientError code))
  | Except.ok none => ([S3Call.listObjectsV2 bucket pfx], Except.ok [])
  | Except.ok (some contents) =>
      ([S3Call.listObjectsV2 bucket pfx], Except.ok (contents.map (fun o =>
        { key := o.key, size := o.size, last_modified := o.lastModified,
          etag := pyStripChar o.etag '"' })))

/-- `S3DataLakeManager.delete_bucket`: with `force`, list the bucket
contents (no prefix) and, if any objects were returned, bulk-delete
them, then delete the bucket; without `force`, just delete the
bucket. -/
def delete_bucket (beh : Behavior) (bucket : String) (force : Bool) :
    StepResult Unit :=
  if force then
    stepBind (list_bucket_contents beh bucket "") (fun objects =>
    stepBind (if objects.isEmpty then ([], Except.ok ())
              else simpleCall beh (S3Call.deleteObjects bucket
                (objects.map (fun o => o.key)))) (fun _ =>
    simpleCall beh (S3Call.deleteBucket bucket)))
  else
    simpleCall beh (S3Call.deleteBucket bucket)

/-- The full call sequence of a provisioning run in which no step
aborts. -/
def expectedCalls (region bucket : String) (zones : List String)
    (ev ee : Bool) (tagSet : List (String × String)) : List S3Call :=
  [createBucketCall region bucket]
    ++ ((if ev then [S3Call.putBucketVersioning bucket "Enabled"] else [])
    ++ ((if ee then [S3Call.putBucketEncryption bucket "AES256"] else [])
    ++ ([S3Call.putPublicAccessBlock bucket]
    ++ (zones.map (zoneObjectCall bucket)
    ++ ([S3Call.putBucketTagging bucket tagSet]
    ++ [S3Call.putBucketLifecycleConfiguration bucket lifecycleRuleIds])))))

/-- The exception a step raises when the client call `c` fails with
error code `code`: `_create_bucket` turns `BucketAlreadyExists` into a
`ValueError`, every other failure is the re-raised `ClientError`. -/
def stepError (c : S3Call) (code : String) : PyError :=
  match c with
  | S3Call.createBucket b _ =>
      if code = "BucketAlreadyExists" then
        PyError.valueError ("Bucket name " ++ b ++ " already exists globally")
      else PyError.clientError code
  | _ => PyError.clientError code

/-- Invariant of a call-issuing computation against the fixed call plan
`calls`: the issued trace is a prefix of the plan, a successful run
issues the whole plan, and a failed run ends exactly at the failing
call, whose client error determines the raised exception. -/
def StepOk (beh : Behavior) {α : Type} (s : StepResult α) (calls : List S3Call) : Prop :=
  s.1 <+: calls ∧
  (∀ a, s.2 = Except.ok a → s.1 = calls) ∧
  (∀ e, s.2 = Except.error e →
    ∃ t c code, s.1 = t ++ [c] ∧ beh c = Except.error code ∧ e = stepError c code)

/-- A call on which the behaviour returns a successful response. -/
def Succeeds (beh : Behavior) (c : S3Call) : Prop :=
  ∃ v, beh c = Except.ok v

/-- Whether a call is a `put_object` call. -/
def isPutObject : S3Call → Bool
  | S3Call.putObject _ _ _ _ => true
  | _ => false

/-- Whether a call is a `put_object` call with an empty body. -/
def hasEmptyBody : S3Call → Bool
  | S3Call.putObject _ _ body _ => body = ""
  | _ => false

/-- Every call succeeds. -/
def behAllOk : Behavior := fun _ => Except.ok none

/-- The public-access-block call fails, all else succeeds. -/
def behPabFails : Behavior := fun c =>
  match c with
  | S3Call.putPublicAccessBlock _ => Except.error "AccessDenied"
  | _ => Except.ok none

/-- The create-bucket call reports a global naming collision. -/
def behCollision : Behavior := fun c =>
  match c with
  | S3Call.createBucket _ _ => Except.error "BucketAlreadyExists"
  | _ => Except.ok none

/-- The create-bucket call for the expected bucket reports
`BucketAlreadyOwnedByYou`; every other call succeeds. -/
def behOwned : Behavior := fun c =>
  if c = S3Call.createBucket "proj-dev-data-lake-ab12cd" none then
    Except.error "BucketAlreadyOwnedByYou"
  else Except.ok none

/-- Three objects, as a bucket listing response. -/
def sampleRawObjects : List RawObject :=
  [{ key := "landing/a.csv", size := 3, lastModified := "2024-01-01T00:00:00",
     etag := "\"e1\"" },
   { key := "raw/b.csv", size := 5, lastModified := "2024-01-02T00:00:00",
     etag := "\"e2\"" },
   { key := "curated/c.csv", size := 7, lastModified := "2024-01-03T00:00:00",
     etag := "\"e3\"" }]

/-- Listing returns three objects, all other calls succeed. -/
def behListThree : Behavior := fun c =>
  match c with
  | S3Call.listObjectsV2 _ _ => Except.ok (some sampleRawObjects)
  | _ => Except.ok none

/-- Listing returns a `Contents` key with an empty list. -/
def behListEmptySome : Behavior := fun c =>
  match c with
  | S3Call.listObjectsV2 _ _ => Except.ok (some [])
  | _ => Except.ok none

/-- The listing call itself fails. -/
def behListFails : Behavior := fun c =>
  match c with
  | S3Call.listObjectsV2 _ _ => Except.error "NoSuchBucket"
  | _ => Except.ok none

/-! ## Theorems -/

theorem char_toNat_ofNat_of_lt (n : Nat) (h : n < 55296) :
    (Char.ofNat n).toNat = n := by
  have hv : n.isValidChar := Or.inl h
  rw [Char.ofNat, dif_pos hv]
  rfl

theorem pyLowerChar_bucketChar (c : Char) (hascii : c.toNat ≤ 127)
    (h : pyIsAlnum c = true ∨ c = '-') : isBucketChar (pyLowerChar c) := by
  rcases h with h | rfl
  · simp only [pyIsAlnum, Bool.or_eq_true, Bool.and_eq_true, decide_eq_true_eq,
      beq_iff_eq] at h
    rcases h with (((h | h) | h) | h) | h
    · -- uppercase ASCII letter: shifted into the lowercase range
      left
      unfold pyLowerChar
      rw [if_pos h, char_toNat_ofNat_of_lt _ (by omega)]
      omega
    · -- lowercase ASCII letter: unchanged
      left
      unfold pyLowerChar
      rw [if_neg (by omega)]
      exact h
    · -- ASCII digit: unchanged
      right; left
      unfold pyLowerChar
      rw [if_neg (by omega)]
      exact h
    · -- CJK ideograph: excluded by the ASCII hypothesis
      omega
    · -- vulgar fraction one half: excluded by the ASCII hypothesis
      omega
  · right; right
    unfold pyLowerChar
    rw [if_neg (by decide)]

theorem cleanName_bucketChar (s : List Char) (hascii : ∀ c ∈ s, c.toNat ≤ 127) :
    ∀ c ∈ cleanName s, isBucketChar c := by
  intro c hc
  unfold cleanName at hc
  rw [List.mem_map] at hc
  obtain ⟨a, ha, rfl⟩ := hc
  rw [List.mem_filter] at ha
  apply pyLowerChar_bucketChar a (hascii a ha.1)
  rcases Bool.or_eq_true _ _ |>.mp ha.2 with h | h
  · exact Or.inl h
  · exact Or.inr (by simpa using h)

theorem drop_length_sub_of_append (l s : List Char) (h : s.length = 6) :
    (l ++ s).drop ((l ++ s).length - 6) = s := by
  have : (l ++ s).length - 6 = l.length := by
    rw [List.length_append]; omega
  rw [this, List.drop_left]

theorem dataLakeSep_bucketChar : ∀ c ∈ "-data-lake-".toList, isBucketChar c := by
  decide

theorem assembleBucketName_length_le (cp ce s : List Char) (h : s.length = 6) :
    (assembleBucketName cp ce s).length ≤ 63 := by
  unfold assembleBucketName
  by_cases h63 : (cp ++ ['-'] ++ ce ++ "-data-lake-".toList ++ s).length > 63
  · rw [if_pos h63]
    rw [List.length_append, List.length_take]
    omega
  · rw [if_neg h63]
    omega

theorem assembleBucketName_suffix (cp ce s : List Char) (h : s.length = 6) :
    (assembleBucketName cp ce s).drop ((assembleBucketName cp ce s).length - 6) = s := by
  unfold assembleBucketName
  set full := cp ++ ['-'] ++ ce ++ "-data-lake-".toList ++ s with hfull
  by_cases h63 : full.length > 63
  · rw [if_pos h63]
    exact drop_length_sub_of_append _ _ h
  · rw [if_neg h63]
    have heq : full = (cp ++ ['-'] ++ ce ++ "-data-lake-".toList) ++ s := by
      simp [hfull, List.append_assoc]
    rw [heq]
    exact drop_length_sub_of_append _ _ h

theorem assembleBucketName_chars (cp ce s : List Char)
    (hcp : ∀ c ∈ cp, isBucketChar c) (hce : ∀ c ∈ ce, isBucketChar c)
    (hs : ∀ c ∈ s, isBucketChar c) :
    ∀ c ∈ assembleBucketName cp ce s, isBucketChar c := by
  intro c hc
  unfold assembleBucketName at hc
  have hfull : ∀ c ∈ cp ++ ['-'] ++ ce ++ "-data-lake-".toList ++ s, isBucketChar c := by
    intro c hc
    simp only [List.mem_append] at hc
    rcases hc with ((((h | h) | h) | h) | h)
    · exact hcp _ h
    · right; right; simpa using h
    · exact hce _ h
    · exact dataLakeSep_bucketChar _ h
    · exact hs _ h
  by_cases h63 : (cp ++ ['-'] ++ ce ++ "-data-lake-".toList ++ s).length > 63
  · rw [if_pos h63] at hc
    rcases List.mem_append.mp hc with h | h
    · exact hfull _ (List.take_subset _ _ h)
    · exact hs _ h
  · rw [if_neg h63] at hc
    exact hfull _ hc

/-- C1 counterexample: Python's `str.isalnum` is Unicode-aware, so the
sanitisation keeps non-ASCII alphanumerics — the project `"中"` yields
the bucket name `中-dev-data-lake-ab12cd`, refuting the claim that for
every project string the generated name contains only lowercase ASCII
letters, digits and hyphens. -/
theorem c1_counterexample :
    _generate_bucket_name "中" "dev" "ab12cd" = "中-dev-data-lake-ab12cd" ∧
    ¬ (∀ c ∈ (_generate_bucket_name "中" "dev" "ab12cd").toList, isBucketChar c) := by
  decide

/-- C1 (amended): for every project and environment string,
`_generate_bucket_name` produces a name of at most 63 characters, and
when the assembled `{project}-{environment}-data-lake-{suffix}` name
exceeds 63 characters the truncation keeps the 6-character random
suffix as the final 6 characters; when the project and environment
consist of ASCII characters only, the name moreover contains only
lowercase letters, digits and hyphens.  The `hlen`/`hsuf` hypotheses
record what the source guarantees about the random suffix: it is drawn
as 6 characters from `string.ascii_lowercase + string.digits`.  The
length and suffix conjuncts are proved via `assembleBucketName`
lemmas that hold for arbitrary sanitised parts, independent of the
character-level sanitisation model. -/
theorem c1_bucket_name_valid (project environment suffix : String)
    (hlen : suffix.length = 6)
    (hsuf : ∀ c ∈ suffix.toList,
      (97 ≤ c.toNat ∧ c.toNat ≤ 122) ∨ (48 ≤ c.toNat ∧ c.toNat ≤ 57)) :
    (_generate_bucket_name project environment suffix).length ≤ 63 ∧
    ((∀ c ∈ project.toList, c.toNat ≤ 127) → (∀ c ∈ environment.toList, c.toNat ≤ 127) →
      ∀ c ∈ (_generate_bucket_name project environment suffix).toList, isBucketChar c) ∧
    ((cleanName project.toList ++ ['-'] ++ cleanName environment.toList ++
        "-data-lake-".toList ++ suffix.toList).length > 63 →
      (_generate_bucket_name project environment suffix).toList.drop
        ((_generate_bucket_name project environment suffix).length - 6) = suffix.toList) := by
  have hslen : suffix.toList.length = 6 := hlen
  have hname : (_generate_bucket_name project environment suffix).toList =
      assembleBucketName (cleanName project.toList) (cleanName environment.toList)
        suffix.toList := rfl
  have hlen' : (_generate_bucket_name project environment suffix).length =
      (assembleBucketName (cleanName project.toList) (cleanName environment.toList)
        suffix.toList).length := rfl
  have hsufchar : ∀ c ∈ suffix.toList, isBucketChar c := by
    intro c hc
    rcases hsuf c hc with h | h
    · exact Or.inl h
    · exact Or.inr (Or.inl h)
  refine ⟨?_, ?_, ?_⟩
  · rw [hlen']
    exact assembleBucketName_length_le _ _ _ hslen
  · intro hp he c hc
    rw [hname] at hc
    exact assembleBucketName_chars _ _ _ (cleanName_bucketChar _ hp)
      (cleanName_bucketChar _ he) hsufchar _ hc
  · intro _
    rw [hname, hlen']
    exact assembleBucketName_suffix _ _ _ hslen

/-- Witness for C1 (amended) at concrete inputs, discharging the ASCII
antecedents of the charset conjunct. -/
theorem c1_bucket_name_valid_witness :
    (_generate_bucket_name "Analytics Platform" "Dev" "ab12cd").length ≤ 63 ∧
    (∀ c ∈ (_generate_bucket_name "Analytics Platform" "Dev" "ab12cd").toList, isBucketChar c) ∧
    ((cleanName "Analytics Platform".toList ++ ['-'] ++ cleanName "Dev".toList ++
        "-data-lake-".toList ++ "ab12cd".toList).length > 63 →
      (_generate_bucket_name "Analytics Platform" "Dev" "ab12cd").toList.drop
        ((_generate_bucket_name "Analytics Platform" "Dev" "ab12cd").length - 6) =
          "ab12cd".toList) := by
  have h := c1_bucket_name_valid "Analytics Platform" "Dev" "ab12cd" (by decide) (by decide)
  exact ⟨h.1, h.2.1 (by decide) (by decide), h.2.2⟩

theorem stepBind_ok {α β : Type} (t : List S3Call) (a : α) (f : α → StepResult β) :
    stepBind (t, Except.ok a) f = (t ++ (f a).1, (f a).2) := rfl

theorem stepBind_error {α β : Type} (t : List S3Call) (e : PyError)
    (f : α → StepResult β) :
    stepBind (t, Except.error e) f = (t, Except.error e) := rfl

theorem stepOk_bind {beh : Behavior} {α β : Type} {s : StepResult α}
    {f : α → StepResult β} {c₁ c₂ : List S3Call}
    (h₁ : StepOk beh s c₁) (h₂ : ∀ a, StepOk beh (f a) c₂) :
    StepOk beh (stepBind s f) (c₁ ++ c₂) := by
  obtain ⟨t, r⟩ := s
  cases r with
  | error e =>
    rw [stepBind_error]
    obtain ⟨hpre, _, herr⟩ := h₁
    refine ⟨hpre.trans ⟨c₂, rfl⟩, by simp, ?_⟩
    intro e' he'
    cases he'
    exact herr e rfl
  | ok a =>
    rw [stepBind_ok]
    obtain ⟨_, hok, _⟩ := h₁
    have ht : t = c₁ := hok a rfl
    subst ht
    obtain ⟨hpre₂, hok₂, herr₂⟩ := h₂ a
    refine ⟨?_, ?_, ?_⟩
    · obtain ⟨u, hu⟩ := hpre₂
      exact ⟨u, by rw [List.append_assoc, hu]⟩
    · intro b hb
      rw [hok₂ b hb]
    · intro e he
      obtain ⟨u, c, code, hu, hc, he'⟩ := herr₂ e he
      exact ⟨t ++ u, c, code, by rw [hu, List.append_assoc], hc, he'⟩

theorem stepOk_pure {beh : Behavior} {α : Type} (a : α) :
    StepOk beh (([], Except.ok a) : StepResult α) [] := by
  refine ⟨⟨[], List.append_nil _⟩, fun _ _ => rfl, fun e he => ?_⟩
  cases he

theorem simpleCall_of_ok {beh : Behavior} {c : S3Call} {v : Option (List RawObject)}
    (h : beh c = Except.ok v) : simpleCall beh c = ([c], Except.ok ()) := by
  unfold simpleCall; rw [h]

theorem simpleCall_of_error {beh : Behavior} {c : S3Call} {code : String}
    (h : beh c = Except.error code) :
    simpleCall beh c = ([c], Except.error (PyError.clientError code)) := by
  unfold simpleCall; rw [h]

theorem simpleCall_fst {beh : Behavior} (c : S3Call) : (simpleCall beh c).1 = [c] := by
  unfold simpleCall
  cases beh c <;> rfl

theorem stepError_eq_clientError {c : S3Call}
    (hc : ∀ b lc, c ≠ S3Call.createBucket b lc) (code : String) :
    stepError c code = PyError.clientError code := by
  cases c with
  | createBucket b lc => exact absurd rfl (hc b lc)
  | _ => rfl

theorem createBucketCall_shape (region bucket : String) :
    ∃ lc, createBucketCall region bucket = S3Call.createBucket bucket lc := by
  unfold createBucketCall
  by_cases h : region = "us-east-1"
  · exact ⟨none, by rw [if_pos h]⟩
  · exact ⟨some region, by rw [if_neg h]⟩

theorem stepOk_single_ok {beh : Behavior} (c : S3Call) :
    StepOk beh (([c], Except.ok ()) : StepResult Unit) [c] := by
  refine ⟨⟨[], List.append_nil _⟩, fun _ _ => rfl, fun e he => ?_⟩
  exact Except.noConfusion he

theorem stepOk_single_error {beh : Behavior} {c : S3Call} {code : String} {e : PyError}
    (hbeh : beh c = Except.error code) (he : e = stepError c code) :
    StepOk beh (([c], Except.error e) : StepResult Unit) [c] := by
  refine ⟨⟨[], List.append_nil _⟩, fun a ha => Except.noConfusion ha, fun e' he' => ?_⟩
  obtain rfl : e = e' := Except.error.inj he'
  exact ⟨[], c, code, rfl, hbeh, he⟩

theorem stepOk_simpleCall {beh : Behavior} (c : S3Call)
    (hc : ∀ code, stepError c code = PyError.clientError code) :
    StepOk beh (simpleCall beh c) [c] := by
  cases hbeh : beh c with
  | ok v =>
    rw [simpleCall_of_ok hbeh]
    exact stepOk_single_ok c
  | error code =>
    rw [simpleCall_of_error hbeh]
    exact stepOk_single_error hbeh (hc code).symm

theorem create_bucket_of_ok {beh : Behavior} {region bucket : String}
    {v : Option (List RawObject)} (h : beh (createBucketCall region bucket) = Except.ok v) :
    _create_bucket beh region bucket = ([createBucketCall region bucket], Except.ok ()) := by
  unfold _create_bucket; rw [h]

theorem create_bucket_of_alreadyExists {beh : Behavior} {region bucket : String}
    (h : beh (createBucketCall region bucket) = Except.error "BucketAlreadyExists") :
    _create_bucket beh region bucket = ([createBucketCall region bucket],
      Except.error (PyError.valueError
        ("Bucket name " ++ bucket ++ " already exists globally"))) := by
  unfold _create_bucket; rw [h]; rfl

theorem create_bucket_of_alreadyOwned {beh : Behavior} {region bucket : String}
    (h : beh (createBucketCall region bucket) = Except.error "BucketAlreadyOwnedByYou") :
    _create_bucket beh region bucket = ([createBucketCall region bucket], Except.ok ()) := by
  unfold _create_bucket; rw [h]; rfl

theorem create_bucket_of_otherError {beh : Behavior} {region bucket code : String}
    (h : beh (createBucketCall region bucket) = Except.error code)
    (h₁ : code ≠ "BucketAlreadyExists") (h₂ : code ≠ "BucketAlreadyOwnedByYou") :
    _create_bucket beh region bucket = ([createBucketCall region bucket],
      Except.error (PyError.clientError code)) := by
  unfold _create_bucket; rw [h]
  simp [h₁, h₂]

theorem stepError_createBucketCall (region bucket code : String) :
    stepError (createBucketCall region bucket) code =
      if code = "BucketAlreadyExists" then
        PyError.valueError ("Bucket name " ++ bucket ++ " already exists globally")
      else PyError.clientError code := by
  obtain ⟨lc, hlc⟩ := createBucketCall_shape region bucket
  rw [hlc]; rfl

theorem stepOk_create_bucket {beh : Behavior} (region bucket : String) :
    StepOk beh (_create_bucket beh region bucket) [createBucketCall region bucket] := by
  cases hbeh : beh (createBucketCall region bucket) with
  | ok v =>
    rw [create_bucket_of_ok hbeh]
    exact stepOk_single_ok _
  | error code =>
    by_cases hae : code = "BucketAlreadyExists"
    · subst hae
      rw [create_bucket_of_alreadyExists hbeh]
      exact stepOk_single_error hbeh
        (by rw [stepError_createBucketCall, if_pos rfl])
    · by_cases hao : code = "BucketAlreadyOwnedByYou"
      · subst hao
        rw [create_bucket_of_alreadyOwned hbeh]
        exact stepOk_single_ok _
      · rw [create_bucket_of_otherError hbeh hae hao]
        exact stepOk_single_error hbeh
          (by rw [stepError_createBucketCall, if_neg hae])

theorem stepOk_zone_folders {beh : Behavior} (bucket : String) (zones : List String) :
    StepOk beh (_create_zone_folders beh bucket zones)
      (zones.map (zoneObjectCall bucket)) := by
  induction zones with
  | nil => exact stepOk_pure ()
  | cons z zs ih =>
    have h := stepOk_bind
      (stepOk_simpleCall (zoneObjectCall bucket z) (fun _ => rfl))
      (fun _ => ih)
    simpa [_create_zone_folders] using h

/-- The master invariant: any run of `create_data_lake_bucket`, against
any client behaviour, issues a prefix of the fixed call plan; a
successful run issues exactly the plan, and a failed run stops at the
failing call. -/
theorem create_stepOk (beh : Behavior) (region project environment : String)
    (zones : Option (List String)) (ev ee : Bool)
    (tags : Option (List (String × String))) (suffix : String) :
    StepOk beh
      (create_data_lake_bucket beh region project environment zones ev ee tags suffix)
      (expectedCalls region (_generate_bucket_name project environment suffix)
        (zones.getD defaultZones) ev ee
        (bucketTags project environment (tags.getD []))) := by
  simp only [create_data_lake_bucket, expectedCalls]
  refine stepOk_bind (stepOk_create_bucket _ _) (fun _ => ?_)
  refine stepOk_bind ?_ (fun _ => ?_)
  · cases ev
    · simpa using @stepOk_pure beh Unit ()
    · simpa [_enable_versioning] using
        @stepOk_simpleCall beh
          (S3Call.putBucketVersioning (_generate_bucket_name project environment suffix)
            "Enabled") (fun _ => rfl)
  refine stepOk_bind ?_ (fun _ => ?_)
  · cases ee
    · simpa using @stepOk_pure beh Unit ()
    · simpa [_enable_encryption] using
        @stepOk_simpleCall beh
          (S3Call.putBucketEncryption (_generate_bucket_name project environment suffix)
            "AES256") (fun _ => rfl)
  refine stepOk_bind ?_ (fun _ => ?_)
  · exact stepOk_simpleCall _ (fun _ => rfl)
  refine stepOk_bind (stepOk_zone_folders _ _) (fun _ => ?_)
  refine stepOk_bind ?_ (fun _ => ?_)
  · exact stepOk_simpleCall _ (fun _ => rfl)
  have h := stepOk_bind
    (@stepOk_simpleCall beh
      (S3Call.putBucketLifecycleConfiguration
        (_generate_bucket_name project environment suffix) lifecycleRuleIds)
      (fun _ => rfl))
    (fun _ => @stepOk_pure beh CreateResult
      (({ bucket_name := _generate_bucket_name project environment suffix,
          region := region, zones := zones.getD defaultZones,
          versioning_enabled := ev, encryption_enabled := ee } : CreateResult)))
  simpa [_configure_lifecycle_rules] using h

theorem zone_folders_ok {beh : Behavior} {bucket : String} {zones : List String}
    (hz : ∀ z ∈ zones, Succeeds beh (zoneObjectCall bucket z)) :
    _create_zone_folders beh bucket zones =
      (zones.map (zoneObjectCall bucket), Except.ok ()) := by
  induction zones with
  | nil => rfl
  | cons z zs ih =>
    obtain ⟨v, hv⟩ := hz z (List.mem_cons_self z zs)
    have hrec := ih (fun z' hz' => hz z' (List.mem_cons_of_mem z hz'))
    simp [_create_zone_folders, simpleCall_of_ok hv, hrec, stepBind_ok]

/-- Computation of a run in which the create-bucket step returns
normally (either a fresh bucket or a tolerated `BucketAlreadyOwnedByYou`)
and every later call succeeds: the full call plan is issued and the
result dictionary is returned. -/
theorem create_run_ok (beh : Behavior) (region project environment : String)
    (zones : Option (List String)) (ev ee : Bool)
    (tags : Option (List (String × String))) (suffix : String)
    (hcb : _create_bucket beh region (_generate_bucket_name project environment suffix) =
      ([createBucketCall region (_generate_bucket_name project environment suffix)],
        Except.ok ()))
    (hrest : ∀ c, (∀ b lc, c ≠ S3Call.createBucket b lc) → Succeeds beh c) :
    create_data_lake_bucket beh region project environment zones ev ee tags suffix =
      (expectedCalls region (_generate_bucket_name project environment suffix)
          (zones.getD defaultZones) ev ee
          (bucketTags project environment (tags.getD [])),
        Except.ok
          { bucket_name := _generate_bucket_name project environment suffix,
            region := region, zones := zones.getD defaultZones,
            versioning_enabled := ev, encryption_enabled := ee }) := by
  obtain ⟨v₂, hv₂⟩ := hrest
    (S3Call.putBucketVersioning (_generate_bucket_name project environment suffix) "Enabled")
    (fun b lc h => S3Call.noConfusion h)
  obtain ⟨v₃, hv₃⟩ := hrest
    (S3Call.putBucketEncryption (_generate_bucket_name project environment suffix) "AES256")
    (fun b lc h => S3Call.noConfusion h)
  obtain ⟨v₄, hv₄⟩ := hrest
    (S3Call.putPublicAccessBlock (_generate_bucket_name project environment suffix))
    (fun b lc h => S3Call.noConfusion h)
  have hz := @zone_folders_ok beh (_generate_bucket_name project environment suffix)
    (zones.getD defaultZones)
    (fun z _ => hrest _ (fun b lc h => S3Call.noConfusion h))
  obtain ⟨v₆, hv₆⟩ := hrest
    (S3Call.putBucketTagging (_generate_bucket_name project environment suffix)
      (bucketTags project environment (tags.getD [])))
    (fun b lc h => S3Call.noConfusion h)
  obtain ⟨v₇, hv₇⟩ := hrest
    (S3Call.putBucketLifecycleConfiguration
      (_generate_bucket_name project environment suffix) lifecycleRuleIds)
    (fun b lc h => S3Call.noConfusion h)
  cases ev <;> cases ee <;>
    simp [create_data_lake_bucket, expectedCalls, hcb,
      _enable_versioning, _enable_encryption, _block_public_access, _apply_tags,
      _configure_lifecycle_rules,
      simpleCall_of_ok hv₂, simpleCall_of_ok hv₃, simpleCall_of_ok hv₄,
      simpleCall_of_ok hv₆, simpleCall_of_ok hv₇, hz, stepBind_ok, stepBind]

/-- Computation of a fully successful run: special case of
`create_run_ok` for a behaviour whose every call succeeds. -/
theorem create_run_ok_of_all (beh : Behavior) (region project environment : String)
    (zones : Option (List String)) (ev ee : Bool)
    (tags : Option (List (String × String))) (suffix : String)
    (hall : ∀ c, Succeeds beh c) :
    create_data_lake_bucket beh region project environment zones ev ee tags suffix =
      (expectedCalls region (_generate_bucket_name project environment suffix)
          (zones.getD defaultZones) ev ee
          (bucketTags project environment (tags.getD [])),
        Except.ok
          { bucket_name := _generate_bucket_name project environment suffix,
            region := region, zones := zones.getD defaultZones,
            versioning_enabled := ev, encryption_enabled := ee }) := by
  obtain ⟨v, hv⟩ := hall
    (createBucketCall region (_generate_bucket_name project environment suffix))
  exact create_run_ok beh region project environment zones ev ee tags suffix
    (create_bucket_of_ok hv) (fun c _ => hall c)

theorem dictLookup_dictInsert (d : List (String × String)) (k v k' : String) :
    dictLookup (dictInsert d k v) k' = if k' = k then some v else dictLookup d k' := by
  induction d with
  | nil =>
    by_cases h : k' = k
    · subst h; simp [dictInsert, dictLookup]
    · simp [dictInsert, dictLookup, h, Ne.symm h]
  | cons p d ih =>
    by_cases hpk : p.1 = k
    · by_cases h : k' = k
      · subst h; simp [dictInsert, dictLookup, hpk]
      · have hpk' : ¬ p.1 = k' := by rw [hpk]; exact Ne.symm h
        simp [dictInsert, dictLookup, hpk, h, Ne.symm h, hpk']
    · by_cases hpk' : p.1 = k'
      · have hk : ¬ k' = k := fun h => hpk (hpk'.trans h)
        simp [dictInsert, dictLookup, hpk, hpk', hk]
      · simp [dictInsert, dictLookup, hpk, hpk', ih]

theorem dictLookup_eq_none_of_not_mem (e : List (String × String)) (k : String)
    (h : k ∉ e.map Prod.fst) : dictLookup e k = none := by
  induction e with
  | nil => rfl
  | cons p e ih =>
    simp only [List.map_cons, List.mem_cons] at h
    push_neg at h
    have h1 : ¬ p.1 = k := Ne.symm h.1
    simp [dictLookup, h1, ih h.2]

theorem dictLookup_dictMerge_of_none (d e : List (String × String)) (k : String)
    (h : dictLookup e k = none) : dictLookup (dictMerge d e) k = dictLookup d k := by
  induction e generalizing d with
  | nil => rfl
  | cons p e ih =>
    simp only [dictLookup] at h
    by_cases hpk : p.1 = k
    · rw [if_pos hpk] at h; cases h
    · rw [if_neg hpk] at h
      have : dictMerge d (p :: e) = dictMerge (dictInsert d p.1 p.2) e := rfl
      rw [this, ih _ h, dictLookup_dictInsert,
        if_neg (fun h' => hpk (Eq.symm h'))]

theorem dictLookup_dictMerge_of_some (d e : List (String × String)) (k v : String)
    (hnd : (e.map Prod.fst).Nodup) (h : dictLookup e k = some v) :
    dictLookup (dictMerge d e) k = some v := by
  induction e generalizing d with
  | nil => cases h
  | cons p e ih =>
    simp only [List.map_cons, List.nodup_cons] at hnd
    have hmerge : dictMerge d (p :: e) = dictMerge (dictInsert d p.1 p.2) e := rfl
    simp only [dictLookup] at h
    by_cases hpk : p.1 = k
    · rw [if_pos hpk] at h
      have hnone : dictLookup e k = none := by
        apply dictLookup_eq_none_of_not_mem
        rw [← hpk]
        exact hnd.1
      rw [hmerge, dictLookup_dictMerge_of_none _ _ _ hnone, dictLookup_dictInsert,
        if_pos (Eq.symm hpk)]
      exact h
    · rw [if_neg hpk] at h
      rw [hmerge]
      exact ih _ hnd.2 h

theorem mem_expectedCalls_shape {region bucket : String}
    {zs : List String} {ev ee : Bool} {tagSet : List (String × String)} {c : S3Call}
    (hc : c ∈ expectedCalls region bucket zs ev ee tagSet) :
    c = createBucketCall region bucket ∨
    (ev = true ∧ c = S3Call.putBucketVersioning bucket "Enabled") ∨
    (ee = true ∧ c = S3Call.putBucketEncryption bucket "AES256") ∨
    c = S3Call.putPublicAccessBlock bucket ∨
    (∃ z ∈ zs, c = zoneObjectCall bucket z) ∨
    c = S3Call.putBucketTagging bucket tagSet ∨
    c = S3Call.putBucketLifecycleConfiguration bucket lifecycleRuleIds := by
  simp only [expectedCalls, List.mem_append, List.mem_singleton] at hc
  rcases hc with h | h | h | h | h | h | h
  · exact Or.inl h
  · cases ev with
    | false => simp at h
    | true =>
      rw [if_pos rfl] at h
      exact Or.inr (Or.inl ⟨rfl, by simpa using h⟩)
  · cases ee with
    | false => simp at h
    | true =>
      rw [if_pos rfl] at h
      exact Or.inr (Or.inr (Or.inl ⟨rfl, by simpa using h⟩))
  · exact Or.inr (Or.inr (Or.inr (Or.inl h)))
  · rw [List.mem_map] at h
    obtain ⟨z, hz, rfl⟩ := h
    exact Or.inr (Or.inr (Or.inr (Or.inr (Or.inl ⟨z, hz, rfl⟩))))
  · exact Or.inr (Or.inr (Or.inr (Or.inr (Or.inr (Or.inl h)))))
  · exact Or.inr (Or.inr (Or.inr (Or.inr (Or.inr (Or.inr h)))))

theorem expectedCalls_no_delete {region bucket : String} {zs : List String}
    {ev ee : Bool} {tagSet : List (String × String)} {c : S3Call}
    (hc : c ∈ expectedCalls region bucket zs ev ee tagSet) :
    (∀ b keys, c ≠ S3Call.deleteObjects b keys) ∧ (∀ b, c ≠ S3Call.deleteBucket b) := by
  obtain ⟨lc, hlc⟩ := createBucketCall_shape region bucket
  rcases mem_expectedCalls_shape hc with
    h | ⟨_, h⟩ | ⟨_, h⟩ | h | ⟨z, _, h⟩ | h | h <;> subst h
  · rw [hlc]
    exact ⟨fun b keys hh => (by cases hh), fun b hh => (by cases hh)⟩
  · exact ⟨fun b keys hh => (by cases hh), fun b hh => (by cases hh)⟩
  · exact ⟨fun b keys hh => (by cases hh), fun b hh => (by cases hh)⟩
  · exact ⟨fun b keys hh => (by cases hh), fun b hh => (by cases hh)⟩
  · exact ⟨fun b keys hh => (by simp [zoneObjectCall] at hh),
      fun b hh => (by simp [zoneObjectCall] at hh)⟩
  · exact ⟨fun b keys hh => (by cases hh), fun b hh => (by cases hh)⟩
  · exact ⟨fun b keys hh => (by cases hh), fun b hh => (by cases hh)⟩

theorem putPublicAccessBlock_mem_expectedCalls (region bucket : String)
    (zs : List String) (ev ee : Bool) (tagSet : List (String × String)) :
    S3Call.putPublicAccessBlock bucket ∈ expectedCalls region bucket zs ev ee tagSet := by
  simp only [expectedCalls, List.mem_append]
  exact Or.inr (Or.inr (Or.inr (Or.inl (List.mem_singleton.mpr rfl))))

theorem list_bucket_contents_of_none {beh : Behavior} {bucket pfx : String}
    (h : beh (S3Call.listObjectsV2 bucket pfx) = Except.ok none) :
    list_bucket_contents beh bucket pfx =
      ([S3Call.listObjectsV2 bucket pfx], Except.ok []) := by
  unfold list_bucket_contents; rw [h]

theorem list_bucket_contents_of_some {beh : Behavior} {bucket pfx : String}
    {l : List RawObject} (h : beh (S3Call.listObjectsV2 bucket pfx) = Except.ok (some l)) :
    list_bucket_contents beh bucket pfx =
      ([S3Call.listObjectsV2 bucket pfx], Except.ok (l.map (fun o =>
        { key := o.key, size := o.size, last_modified := o.lastModified,
          etag := pyStripChar o.etag '"' }))) := by
  unfold list_bucket_contents; rw [h]

theorem list_bucket_contents_of_error {beh : Behavior} {bucket pfx code : String}
    (h : beh (S3Call.listObjectsV2 bucket pfx) = Except.error code) :
    list_bucket_contents beh bucket pfx =
      ([S3Call.listObjectsV2 bucket pfx], Except.error (PyError.clientError code)) := by
  unfold list_bucket_contents; rw [h]

/-- C2: whenever a provisioning run raises an error, the issued calls
are a prefix of the fixed plan (so no step runs after the failure and
none runs out of order), no delete/rollback call is ever issued, and the
raised error is exactly the error the failing step raised — the last
issued call is the failing one and `stepError` maps its client error to
the surfaced exception unchanged (`_create_bucket` itself raises a
`ValueError` for `BucketAlreadyExists`; the top-level handler re-raises
whatever the step raised). -/
theorem c2_step_failure_aborts (beh : Behavior) (region project environment : String)
    (zones : Option (List String)) (ev ee : Bool)
    (tags : Option (List (String × String))) (suffix : String) (e : PyError)
    (h : (create_data_lake_bucket beh region project environment zones ev ee tags suffix).2 =
      Except.error e) :
    (create_data_lake_bucket beh region project environment zones ev ee tags suffix).1 <+:
      expectedCalls region (_generate_bucket_name project environment suffix)
        (zones.getD defaultZones) ev ee (bucketTags project environment (tags.getD [])) ∧
    (∀ b keys, S3Call.deleteObjects b keys ∉
      (create_data_lake_bucket beh region project environment zones ev ee tags suffix).1) ∧
    (∀ b, S3Call.deleteBucket b ∉
      (create_data_lake_bucket beh region project environment zones ev ee tags suffix).1) ∧
    (∃ t c code,
      (create_data_lake_bucket beh region project environment zones ev ee tags suffix).1 =
        t ++ [c] ∧ beh c = Except.error code ∧ e = stepError c code) := by
  obtain ⟨hpre, hok, herr⟩ :=
    create_stepOk beh region project environment zones ev ee tags suffix
  refine ⟨hpre, ?_, ?_, herr e h⟩
  · intro b keys hmem
    exact (expectedCalls_no_delete (hpre.subset hmem)).1 b keys rfl
  · intro b hmem
    exact (expectedCalls_no_delete (hpre.subset hmem)).2 b rfl

/-- Witness for C2: a run whose public-access-block call fails. -/
theorem c2_step_failure_aborts_witness :
    (create_data_lake_bucket behPabFails "us-east-1" "proj" "dev" none true true none
        "ab12cd").1 <+:
      expectedCalls "us-east-1" (_generate_bucket_name "proj" "dev" "ab12cd")
        ((none : Option (List String)).getD defaultZones) true true
        (bucketTags "proj" "dev" ((none : Option (List (String × String))).getD [])) ∧
    (∀ b keys, S3Call.deleteObjects b keys ∉
      (create_data_lake_bucket behPabFails "us-east-1" "proj" "dev" none true true none
        "ab12cd").1) ∧
    (∀ b, S3Call.deleteBucket b ∉
      (create_data_lake_bucket behPabFails "us-east-1" "proj" "dev" none true true none
        "ab12cd").1) ∧
    (∃ t c code,
      (create_data_lake_bucket behPabFails "us-east-1" "proj" "dev" none true true none
        "ab12cd").1 = t ++ [c] ∧ behPabFails c = Except.error code ∧
        PyError.clientError "AccessDenied" = stepError c code) :=
  c2_step_failure_aborts behPabFails "us-east-1" "proj" "dev" none true true none "ab12cd"
    (PyError.clientError "AccessDenied") rfl

/-- C3: a `BucketAlreadyExists` failure of the create-bucket call makes
the run stop immediately with a `ValueError` naming collision — the
create-bucket call is the only call issued — while a
`BucketAlreadyOwnedByYou` failure is tolerated: provided the remaining
calls succeed, every remaining provisioning step still executes and the
run returns its normal result. -/
theorem c3_create_bucket_branches (beh₁ beh₂ : Behavior)
    (region project environment : String) (zones : Option (List String)) (ev ee : Bool)
    (tags : Option (List (String × String))) (suffix : String)
    (h₁ : beh₁ (createBucketCall region (_generate_bucket_name project environment suffix)) =
      Except.error "BucketAlreadyExists")
    (h₂ : beh₂ (createBucketCall region (_generate_bucket_name project environment suffix)) =
      Except.error "BucketAlreadyOwnedByYou")
    (h₃ : ∀ c, c ≠ createBucketCall region (_generate_bucket_name project environment suffix) →
      Succeeds beh₂ c) :
    create_data_lake_bucket beh₁ region project environment zones ev ee tags suffix =
      ([createBucketCall region (_generate_bucket_name project environment suffix)],
        Except.error (PyError.valueError ("Bucket name " ++
          _generate_bucket_name project environment suffix ++ " already exists globally"))) ∧
    create_data_lake_bucket beh₂ region project environment zones ev ee tags suffix =
      (expectedCalls region (_generate_bucket_name project environment suffix)
          (zones.getD defaultZones) ev ee (bucketTags project environment (tags.getD [])),
        Except.ok
          { bucket_name := _generate_bucket_name project environment suffix,
            region := region, zones := zones.getD defaultZones,
            versioning_enabled := ev, encryption_enabled := ee }) := by
  constructor
  · simp only [create_data_lake_bucket]
    rw [create_bucket_of_alreadyExists h₁, stepBind_error]
  · apply create_run_ok beh₂ region project environment zones ev ee tags suffix
      (create_bucket_of_alreadyOwned h₂)
    intro c hc
    apply h₃
    obtain ⟨lc, hlc⟩ :=
      createBucketCall_shape region (_generate_bucket_name project environment suffix)
    rw [hlc]
    exact hc _ lc

/-- Witness for C3 at concrete inputs. -/
theorem c3_create_bucket_branches_witness :
    create_data_lake_bucket behCollision "us-east-1" "proj" "dev" none true true none
        "ab12cd" =
      ([createBucketCall "us-east-1" (_generate_bucket_name "proj" "dev" "ab12cd")],
        Except.error (PyError.valueError ("Bucket name " ++
          _generate_bucket_name "proj" "dev" "ab12cd" ++ " already exists globally"))) ∧
    create_data_lake_bucket behOwned "us-east-1" "proj" "dev" none true true none
        "ab12cd" =
      (expectedCalls "us-east-1" (_generate_bucket_name "proj" "dev" "ab12cd")
          ((none : Option (List String)).getD defaultZones) true true
          (bucketTags "proj" "dev" ((none : Option (List (String × String))).getD [])),
        Except.ok
          { bucket_name := _generate_bucket_name "proj" "dev" "ab12cd",
            region := "us-east-1",
            zones := (none : Option (List String)).getD defaultZones,
            versioning_enabled := true, encryption_enabled := true }) :=
  c3_create_bucket_branches behCollision behOwned "us-east-1" "proj" "dev" none true true
    none "ab12cd" rfl rfl
    (by
      intro c hc
      have hlit : createBucketCall "us-east-1" (_generate_bucket_name "proj" "dev" "ab12cd") =
          S3Call.createBucket "proj-dev-data-lake-ab12cd" none := by decide
      refine ⟨none, ?_⟩
      simp only [behOwned]
      rw [if_neg (by rw [← hlit]; exact hc)])

theorem expectedCalls_no_versioning {region bucket : String} {zs : List String}
    {ee : Bool} {tagSet : List (String × String)} {c : S3Call}
    (hc : c ∈ expectedCalls region bucket zs false ee tagSet) :
    ∀ b st, c ≠ S3Call.putBucketVersioning b st := by
  obtain ⟨lc, hlc⟩ := createBucketCall_shape region bucket
  rcases mem_expectedCalls_shape hc with
    h | ⟨hev, h⟩ | ⟨_, h⟩ | h | ⟨z, _, h⟩ | h | h
  · subst h; rw [hlc]; exact fun b st hh => by cases hh
  · cases hev
  · subst h; exact fun b st hh => by cases hh
  · subst h; exact fun b st hh => by cases hh
  · subst h; exact fun b st hh => by simp [zoneObjectCall] at hh
  · subst h; exact fun b st hh => by cases hh
  · subst h; exact fun b st hh => by cases hh

theorem expectedCalls_no_encryption {region bucket : String} {zs : List String}
    {ev : Bool} {tagSet : List (String × String)} {c : S3Call}
    (hc : c ∈ expectedCalls region bucket zs ev false tagSet) :
    ∀ b alg, c ≠ S3Call.putBucketEncryption b alg := by
  obtain ⟨lc, hlc⟩ := createBucketCall_shape region bucket
  rcases mem_expectedCalls_shape hc with
    h | ⟨_, h⟩ | ⟨hee, h⟩ | h | ⟨z, _, h⟩ | h | h
  · subst h; rw [hlc]; exact fun b alg hh => by cases hh
  · subst h; exact fun b alg hh => by cases hh
  · cases hee
  · subst h; exact fun b alg hh => by cases hh
  · subst h; exact fun b alg hh => by simp [zoneObjectCall] at hh
  · subst h; exact fun b alg hh => by cases hh
  · subst h; exact fun b alg hh => by cases hh

/-- C4: with both feature flags off, a fully successful run issues
exactly create-bucket, block-public-access, one zone object per zone,
tagging and lifecycle — in that order — and never a versioning or an
encryption call; and whatever the flags, a successful run always issues
the public-access-block call. -/
theorem c4_flags_off_sequence (beh : Behavior) (region project environment : String)
    (zones : Option (List String)) (tags : Option (List (String × String)))
    (suffix : String) (hall : ∀ c, Succeeds beh c) :
    (create_data_lake_bucket beh region project environment zones false false tags
        suffix).1 =
      [createBucketCall region (_generate_bucket_name project environment suffix)] ++
        ([S3Call.putPublicAccessBlock (_generate_bucket_name project environment suffix)] ++
        ((zones.getD defaultZones).map
            (zoneObjectCall (_generate_bucket_name project environment suffix)) ++
        ([S3Call.putBucketTagging (_generate_bucket_name project environment suffix)
            (bucketTags project environment (tags.getD []))] ++
         [S3Call.putBucketLifecycleConfiguration
            (_generate_bucket_name project environment suffix) lifecycleRuleIds]))) ∧
    (∀ b st, S3Call.putBucketVersioning b st ∉
      (create_data_lake_bucket beh region project environment zones false false tags
        suffix).1) ∧
    (∀ b alg, S3Call.putBucketEncryption b alg ∉
      (create_data_lake_bucket beh region project environment zones false false tags
        suffix).1) ∧
    (∀ ev ee, S3Call.putPublicAccessBlock (_generate_bucket_name project environment suffix) ∈
      (create_data_lake_bucket beh region project environment zones ev ee tags suffix).1) := by
  have h00 := create_run_ok_of_all beh region project environment zones false false tags
    suffix hall
  refine ⟨?_, ?_, ?_, ?_⟩
  · rw [h00]
    simp [expectedCalls]
  · intro b st hmem
    rw [h00] at hmem
    exact expectedCalls_no_versioning hmem b st rfl
  · intro b alg hmem
    rw [h00] at hmem
    exact expectedCalls_no_encryption hmem b alg rfl
  · intro ev ee
    have h := create_run_ok_of_all beh region project environment zones ev ee tags
      suffix hall
    rw [h]
    exact putPublicAccessBlock_mem_expectedCalls _ _ _ _ _ _

/-- Witness for C4 at concrete inputs. -/
theorem c4_flags_off_sequence_witness :
    (create_data_lake_bucket behAllOk "us-east-1" "proj" "dev" none false false none
        "ab12cd").1 =
      [createBucketCall "us-east-1" (_generate_bucket_name "proj" "dev" "ab12cd")] ++
        ([S3Call.putPublicAccessBlock (_generate_bucket_name "proj" "dev" "ab12cd")] ++
        (((none : Option (List String)).getD defaultZones).map
            (zoneObjectCall (_generate_bucket_name "proj" "dev" "ab12cd")) ++
        ([S3Call.putBucketTagging (_generate_bucket_name "proj" "dev" "ab12cd")
            (bucketTags "proj" "dev" ((none : Option (List (String × String))).getD []))] ++
         [S3Call.putBucketLifecycleConfiguration
            (_generate_bucket_name "proj" "dev" "ab12cd") lifecycleRuleIds]))) ∧
    (∀ b st, S3Call.putBucketVersioning b st ∉
      (create_data_lake_bucket behAllOk "us-east-1" "proj" "dev" none false false none
        "ab12cd").1) ∧
    (∀ b alg, S3Call.putBucketEncryption b alg ∉
      (create_data_lake_bucket behAllOk "us-east-1" "proj" "dev" none false false none
        "ab12cd").1) ∧
    (∀ ev ee, S3Call.putPublicAccessBlock (_generate_bucket_name "proj" "dev" "ab12cd") ∈
      (create_data_lake_bucket behAllOk "us-east-1" "proj" "dev" none ev ee none
        "ab12cd").1) :=
  c4_flags_off_sequence behAllOk "us-east-1" "proj" "dev" none none "ab12cd"
    (fun _ => ⟨none, rfl⟩)

/-- C5 counterexample: the placeholder objects the code writes are not
empty — their body is the 35-byte string
`placeholder file for data lake zone` — so the claim that an *empty*
placeholder object is written per zone fails: in a concrete run over
zones `["landing", "raw"]` no issued `put_object` call has an empty
body. -/
theorem c5_counterexample :
    zoneKeepBody ≠ "" ∧
    S3Call.putObject "proj-dev-data-lake-ab12cd" "landing/.keep" zoneKeepBody
        "text/plain" ∈
      (create_data_lake_bucket behAllOk "us-east-1" "proj" "dev"
        (some ["landing", "raw"]) true true none "ab12cd").1 ∧
    (create_data_lake_bucket behAllOk "us-east-1" "proj" "dev"
        (some ["landing", "raw"]) true true none "ab12cd").1.all
      (fun c => !hasEmptyBody c) = true := by
  decide

theorem filter_isPutObject_map_zones (bucket : String) (zs : List String) :
    (zs.map (zoneObjectCall bucket)).filter isPutObject = zs.map (zoneObjectCall bucket) := by
  induction zs with
  | nil => rfl
  | cons z zs ih => simp [zoneObjectCall, isPutObject, ih]

theorem filter_isPutObject_expectedCalls (region bucket : String) (zs : List String)
    (ev ee : Bool) (tagSet : List (String × String)) :
    (expectedCalls region bucket zs ev ee tagSet).filter isPutObject =
      zs.map (zoneObjectCall bucket) := by
  obtain ⟨lc, hlc⟩ := createBucketCall_shape region bucket
  cases ev <;> cases ee <;>
    simp [expectedCalls, List.filter_append, hlc, isPutObject,
      filter_isPutObject_map_zones]

/-- C5 (amended): a fully successful run over a caller-supplied zone
list writes exactly one placeholder object per zone — with the fixed
non-empty body `placeholder file for data lake zone` — at key
`{zone}/.keep`, in the order the zones are listed. -/
theorem c5_amended_zone_objects (beh : Behavior) (region project environment : String)
    (zs : List String) (ev ee : Bool) (tags : Option (List (String × String)))
    (suffix : String) (hall : ∀ c, Succeeds beh c) :
    (create_data_lake_bucket beh region project environment (some zs) ev ee tags
        suffix).1.filter isPutObject =
      zs.map (fun z => S3Call.putObject (_generate_bucket_name project environment suffix)
        (z ++ "/.keep") zoneKeepBody "text/plain") := by
  have h := create_run_ok_of_all beh region project environment (some zs) ev ee tags
    suffix hall
  rw [h]
  rw [show ((some zs : Option (List String)).getD defaultZones) = zs from rfl]
  rw [filter_isPutObject_expectedCalls]
  rfl

/-- Witness for C5 (amended): zones `["landing", "raw"]` produce exactly
the two placeholder objects `landing/.keep` and `raw/.keep`. -/
theorem c5_amended_zone_objects_witness :
    (create_data_lake_bucket behAllOk "us-east-1" "proj" "dev"
        (some ["landing", "raw"]) true true none "ab12cd").1.filter isPutObject =
      ["landing", "raw"].map
        (fun z => S3Call.putObject (_generate_bucket_name "proj" "dev" "ab12cd")
          (z ++ "/.keep") zoneKeepBody "text/plain") :=
  c5_amended_zone_objects behAllOk "us-east-1" "proj" "dev" ["landing", "raw"] true true
    none "ab12cd" (fun _ => ⟨none, rfl⟩)

theorem putBucketTagging_mem_expectedCalls (region bucket : String) (zs : List String)
    (ev ee : Bool) (tagSet : List (String × String)) :
    S3Call.putBucketTagging bucket tagSet ∈ expectedCalls region bucket zs ev ee tagSet := by
  simp only [expectedCalls, List.mem_append]
  exact Or.inr (Or.inr (Or.inr (Or.inr (Or.inr (Or.inl (List.mem_singleton.mpr rfl))))))

/-- C6: the tag set applied by a successful run is the four base tags
(`Project`, `Environment`, `ManagedBy`, `Purpose`) merged with the
caller's tags, with the caller's value winning on any key collision and
untouched base tags preserved. -/
theorem c6_tag_merge (beh : Behavior) (region project environment : String)
    (zones : Option (List String)) (ev ee : Bool) (suffix : String)
    (ctags : List (String × String)) (hnd : (ctags.map Prod.fst).Nodup)
    (hall : ∀ c, Succeeds beh c) :
    S3Call.putBucketTagging (_generate_bucket_name project environment suffix)
        (bucketTags project environment ctags) ∈
      (create_data_lake_bucket beh region project environment zones ev ee (some ctags)
        suffix).1 ∧
    (∀ k v, dictLookup ctags k = some v →
      dictLookup (bucketTags project environment ctags) k = some v) ∧
    (∀ k, dictLookup ctags k = none →
      dictLookup (bucketTags project environment ctags) k =
        dictLookup (baseTags project environment) k) := by
  have h := create_run_ok_of_all beh region project environment zones ev ee (some ctags)
    suffix hall
  refine ⟨?_, ?_, ?_⟩
  · rw [h]
    exact putBucketTagging_mem_expectedCalls _ _ _ _ _ _
  · intro k v hk
    exact dictLookup_dictMerge_of_some _ _ _ _ hnd hk
  · intro k hk
    exact dictLookup_dictMerge_of_none _ _ _ hk

/-- Witness for C6: caller tags `{"Owner": "x"}`. -/
theorem c6_tag_merge_witness :
    S3Call.putBucketTagging (_generate_bucket_name "proj" "dev" "ab12cd")
        (bucketTags "proj" "dev" [("Owner", "x")]) ∈
      (create_data_lake_bucket behAllOk "us-east-1" "proj" "dev" none true true
        (some [("Owner", "x")]) "ab12cd").1 ∧
    (∀ k v, dictLookup [("Owner", "x")] k = some v →
      dictLookup (bucketTags "proj" "dev" [("Owner", "x")]) k = some v) ∧
    (∀ k, dictLookup [("Owner", "x")] k = none →
      dictLookup (bucketTags "proj" "dev" [("Owner", "x")]) k =
        dictLookup (baseTags "proj" "dev") k) :=
  c6_tag_merge behAllOk "us-east-1" "proj" "dev" none true true "ab12cd"
    [("Owner", "x")] (by simp) (fun _ => ⟨none, rfl⟩)

/-- C7: `delete_bucket` with `force` on a bucket whose listing returns
three objects issues exactly one bulk `delete_objects` call covering all
three keys, before the `delete_bucket` call; without `force` it issues
only the `delete_bucket` call and never a `delete_objects` call. -/
theorem c7_force_delete (beh : Behavior) (bucket : String) (o₁ o₂ o₃ : RawObject)
    (hl : beh (S3Call.listObjectsV2 bucket "") = Except.ok (some [o₁, o₂, o₃]))
    (hd : Succeeds beh (S3Call.deleteObjects bucket [o₁.key, o₂.key, o₃.key])) :
    (delete_bucket beh bucket true).1 =
      [S3Call.listObjectsV2 bucket "",
       S3Call.deleteObjects bucket [o₁.key, o₂.key, o₃.key],
       S3Call.deleteBucket bucket] ∧
    (delete_bucket beh bucket false).1 = [S3Call.deleteBucket bucket] ∧
    (∀ b keys, S3Call.deleteObjects b keys ∉ (delete_bucket beh bucket false).1) := by
  obtain ⟨v, hv⟩ := hd
  have hfalse : delete_bucket beh bucket false = simpleCall beh (S3Call.deleteBucket bucket) :=
    rfl
  refine ⟨?_, ?_, ?_⟩
  · simp [delete_bucket, list_bucket_contents_of_some hl, stepBind_ok,
      simpleCall_of_ok hv, simpleCall_fst]
  · rw [hfalse, simpleCall_fst]
  · intro b keys hmem
    rw [hfalse, simpleCall_fst] at hmem
    cases List.mem_singleton.mp hmem

/-- Witness for C7: a bucket listing with three sample objects. -/
theorem c7_force_delete_witness :
    (delete_bucket behListThree "lake" true).1 =
      [S3Call.listObjectsV2 "lake" "",
       S3Call.deleteObjects "lake"
         [(sampleRawObjects.get ⟨0, by decide⟩).key, (sampleRawObjects.get ⟨1, by decide⟩).key,
          (sampleRawObjects.get ⟨2, by decide⟩).key],
       S3Call.deleteBucket "lake"] ∧
    (delete_bucket behListThree "lake" false).1 = [S3Call.deleteBucket "lake"] ∧
    (∀ b keys, S3Call.deleteObjects b keys ∉ (delete_bucket behListThree "lake" false).1) :=
  c7_force_delete behListThree "lake" (sampleRawObjects.get ⟨0, by decide⟩)
    (sampleRawObjects.get ⟨1, by decide⟩) (sampleRawObjects.get ⟨2, by decide⟩)
    rfl ⟨none, rfl⟩

/-- C8: a successful listing with no matching objects (no `Contents`
key, or an empty `Contents` list) yields the valid empty result, while a
failing listing call re-raises its `ClientError`; the two outcomes are
distinguishable values. -/
theorem c8_list_empty_vs_error (behA behB behC : Behavior) (bucket pfx code : String)
    (hA : behA (S3Call.listObjectsV2 bucket pfx) = Except.ok none)
    (hB : behB (S3Call.listObjectsV2 bucket pfx) = Except.ok (some []))
    (hC : behC (S3Call.listObjectsV2 bucket pfx) = Except.error code) :
    list_bucket_contents behA bucket pfx =
      ([S3Call.listObjectsV2 bucket pfx], Except.ok []) ∧
    list_bucket_contents behB bucket pfx =
      ([S3Call.listObjectsV2 bucket pfx], Except.ok []) ∧
    list_bucket_contents behC bucket pfx =
      ([S3Call.listObjectsV2 bucket pfx], Except.error (PyError.clientError code)) ∧
    (Except.ok ([] : List ObjInfo) : Except PyError (List ObjInfo)) ≠
      Except.error (PyError.clientError code) := by
  refine ⟨list_bucket_contents_of_none hA, ?_, list_bucket_contents_of_error hC,
    fun h => by cases h⟩
  rw [list_bucket_contents_of_some hB]
  rfl

/-- Witness for C8 at concrete behaviours. -/
theorem c8_list_empty_vs_error_witness :
    list_bucket_contents behAllOk "lake" "landing/" =
      ([S3Call.listObjectsV2 "lake" "landing/"], Except.ok []) ∧
    list_bucket_contents behListEmptySome "lake" "landing/" =
      ([S3Call.listObjectsV2 "lake" "landing/"], Except.ok []) ∧
    list_bucket_contents behListFails "lake" "landing/" =
      ([S3Call.listObjectsV2 "lake" "landing/"],
        Except.error (PyError.clientError "NoSuchBucket")) ∧
    (Except.ok ([] : List ObjInfo) : Except PyError (List ObjInfo)) ≠
      Except.error (PyError.clientError "NoSuchBucket") :=
  c8_list_empty_vs_error behAllOk behListEmptySome behListFails "lake" "landing/"
    "NoSuchBucket" rfl rfl rfl

/-- C9: called without a zones argument, `create_data_lake_bucket` uses
the default zone list `['landing', 'raw', 'curated', 'analytics']`: the
returned result's `zones` field is that list and exactly those four
placeholder objects are written. -/
theorem c9_default_zones (beh : Behavior) (region project environment : String)
    (ev ee : Bool) (tags : Option (List (String × String))) (suffix : String)
    (hall : ∀ c, Succeeds beh c) :
    (create_data_lake_bucket beh region project environment none ev ee tags suffix).2 =
      Except.ok
        { bucket_name := _generate_bucket_name project environment suffix,
          region := region, zones := ["landing", "raw", "curated", "analytics"],
          versioning_enabled := ev, encryption_enabled := ee } ∧
    (create_data_lake_bucket beh region project environment none ev ee tags
        suffix).1.filter isPutObject =
      ["landing", "raw", "curated", "analytics"].map
        (fun z => S3Call.putObject (_generate_bucket_name project environment suffix)
          (z ++ "/.keep") zoneKeepBody "text/plain") := by
  have h := create_run_ok_of_all beh region project environment none ev ee tags suffix hall
  constructor
  · rw [h]
    rfl
  · rw [h]
    rw [show ((none : Option (List String)).getD defaultZones) = defaultZones from rfl]
    rw [filter_isPutObject_expectedCalls]
    rfl

/-- Witness for C9 at concrete inputs. -/
theorem c9_default_zones_witness :
    (create_data_lake_bucket behAllOk "us-east-1" "proj" "dev" none true true none
        "ab12cd").2 =
      Except.ok
        { bucket_name := _generate_bucket_name "proj" "dev" "ab12cd",
          region := "us-east-1", zones := ["landing", "raw", "curated", "analytics"],
          versioning_enabled := true, encryption_enabled := true } ∧
    (create_data_lake_bucket behAllOk "us-east-1" "proj" "dev" none true true none
        "ab12cd").1.filter isPutObject =
      ["landing", "raw", "curated", "analytics"].map
        (fun z => S3Call.putObject (_generate_bucket_name "proj" "dev" "ab12cd")
          (z ++ "/.keep") zoneKeepBody "text/plain") :=
  c9_default_zones behAllOk "us-east-1" "proj" "dev" true true none "ab12cd"
    (fun _ => ⟨none, rfl⟩)

/-- C10: `delete_bucket` with `force` on a bucket whose listing reports
no objects (no `Contents` key, or an empty one) issues no
`delete_objects` call at all: the only deletion call is the final
`delete_bucket` call. -/
theorem c10_force_empty_listing (behA behB : Behavior) (bucket : String)
    (hA : behA (S3Call.listObjectsV2 bucket "") = Except.ok none)
    (hB : behB (S3Call.listObjectsV2 bucket "") = Except.ok (some [])) :
    (delete_bucket behA bucket true).1 =
      [S3Call.listObjectsV2 bucket "", S3Call.deleteBucket bucket] ∧
    (delete_bucket behB bucket true).1 =
      [S3Call.listObjectsV2 bucket "", S3Call.deleteBucket bucket] ∧
    (∀ b keys, S3Call.deleteObjects b keys ∉ (delete_bucket behA bucket true).1) ∧
    (∀ b keys, S3Call.deleteObjects b keys ∉ (delete_bucket behB bucket true).1) := by
  have h1 : (delete_bucket behA bucket true).1 =
      [S3Call.listObjectsV2 bucket "", S3Call.deleteBucket bucket] := by
    simp [delete_bucket, list_bucket_contents_of_none hA, stepBind_ok, simpleCall_fst]
  have h2 : (delete_bucket behB bucket true).1 =
      [S3Call.listObjectsV2 bucket "", S3Call.deleteBucket bucket] := by
    simp [delete_bucket, list_bucket_contents_of_some hB, stepBind_ok, simpleCall_fst]
  refine ⟨h1, h2, ?_, ?_⟩
  · intro b keys hmem
    rw [h1] at hmem
    rcases List.mem_cons.mp hmem with h | h
    · cases h
    · cases List.mem_singleton.mp h
  · intro b keys hmem
    rw [h2] at hmem
    rcases List.mem_cons.mp hmem with h | h
    · cases h
    · cases List.mem_singleton.mp h

/-- Witness for C10 at concrete behaviours. -/
theorem c10_force_empty_listing_witness :
    (delete_bucket behAllOk "lake" true).1 =
      [S3Call.listObjectsV2 "lake" "", S3Call.deleteBucket "lake"] ∧
    (delete_bucket behListEmptySome "lake" true).1 =
      [S3Call.listObjectsV2 "lake" "", S3Call.deleteBucket "lake"] ∧
    (∀ b keys, S3Call.deleteObjects b keys ∉ (delete_bucket behAllOk "lake" true).1) ∧
    (∀ b keys, S3Call.deleteObjects b keys ∉ (delete_bucket behListEmptySome "lake" true).1) :=
  c10_force_empty_listing behAllOk behListEmptySome "lake" rfl rfl

end DataLake

